import Mathlib

/-!
Verification of the complaint-intake system
(`supabase/functions/process-complaint/index.ts`,
`supabase/functions/manage-complaints/index.ts`, and the `complaints`
table schema of the migrations).

The TypeScript edge functions are embedded shallowly: the HTTP handlers
become pure Lean functions over an explicit store (a list of complaint
rows, mirroring the `complaints` table), the external ML service and the
identity-resolution call become explicit oracle parameters, and the wall
clock becomes an explicit timestamp parameter.
-/

namespace CustomerReview

/-- A row of the `complaints` table: the columns created by the base
schema migration plus `ai_confidence_score`, `ai_explanation` (second
migration) and `user_id`, `user_email` (user-tracking migration).
Timestamps are modelled as naturals, ids as naturals (uuids are opaque),
`feedback_helpful boolean DEFAULT null` as `Option Bool`. -/
structure Complaint where
  id : Nat
  complaint_text : String
  category : String
  sentiment : String
  priority : String
  ai_response : String
  ai_confidence_score : Int
  ai_explanation : String
  status : String
  feedback_helpful : Option Bool
  user_id : Option Nat
  user_email : Option String
  created_at : Nat
  updated_at : Nat
deriving Repr, DecidableEq

/-- The `complaints` table contents. -/
abbrev Store := List Complaint

/-- The JSON body a responding ML service may return.  Each field can be
absent (or JSON `null`), hence `Option`; `confidence_score` is numeric. -/
structure MLPayload where
  category : Option String
  sentiment : Option String
  priority : Option String
  ai_response : Option String
  confidence_score : Option Int
  explanation : Option String
deriving Repr, DecidableEq

/-- A validated prediction, as destructured by the handler after
`getMLPredictions` has checked the four mandatory fields. -/
structure MLPredictions where
  category : String
  sentiment : String
  priority : String
  ai_response : String
  confidence_score : Option Int
  explanation : Option String
deriving Repr, DecidableEq

/-- Outcome of the single outbound `fetch` to `ML_SERVICE_URL/predict`,
made explicit as an oracle: the environment variable may be unset, the
fetch may throw (unreachable network or the 10-second `AbortSignal`
timeout), the response may carry a non-success status (`response.ok`
false), the body may fail to parse as JSON, or a JSON payload arrives. -/
inductive MLOutcome where
  | noUrl
  | netError
  | httpError (statusCode : Nat)
  | parseError
  | success (p : MLPayload)
deriving Repr, DecidableEq

/-- The JS truthiness test `!predictions.field` on a string-valued JSON
field: absent/`null` and the empty string are falsy. -/
def truthyStr : Option String → Bool
  | none => false
  | some s => !(s == "")

/-- The payload validation inside `getMLPredictions`:
`if (!predictions.category || !predictions.sentiment || !predictions.priority
|| !predictions.ai_response) return null`, otherwise the payload is
returned for destructuring. -/
def validatePayload (p : MLPayload) : Option MLPredictions :=
  if truthyStr p.category && truthyStr p.sentiment && truthyStr p.priority
      && truthyStr p.ai_response then
    match p.category, p.sentiment, p.priority, p.ai_response with
    | some c, some s, some pr, some r =>
        some ⟨c, s, pr, r, p.confidence_score, p.explanation⟩
    | _, _, _, _ => none
  else
    none

/-- `getMLPredictions` from `process-complaint/index.ts`: returns `null`
(`none`) when the URL is unconfigured, the fetch throws, the status is
non-success, the body is unparseable, or a mandatory field is falsy. -/
def getMLPredictions : MLOutcome → Option MLPredictions
  | .noUrl => none
  | .netError => none
  | .httpError _ => none
  | .parseError => none
  | .success p => validatePayload p

/-- `getFallbackValues` from `process-complaint/index.ts` (the generation
with confidence and explanation): the static substitute used whenever
`getMLPredictions` yields `null`. -/
def getFallbackValues : MLPredictions :=
  { category := "Other"
    sentiment := "Neutral"
    priority := "Low"
    ai_response := "Thank you for contacting Indian Postal Department. Your complaint has been received and will be reviewed by our support team. We will get back to you within 48 hours. For urgent matters, please call our helpline."
    confidence_score := some 50
    explanation := some "Using fallback values due to ML service unavailability." }

/-- JS `confidence_score || 0` on a numeric field: absent/`null` gives 0;
`0` itself is falsy but `0 || 0` is again 0, so `getD 0` is exact. -/
def confidenceOrZero (x : Option Int) : Int := x.getD 0

/-- JS `explanation || ''`: absent/`null` gives the empty string; the
empty string is falsy but maps to itself, so `getD` is exact. -/
def explanationOrEmpty (x : Option String) : String := x.getD ""

/-- The request environment of one `process-complaint` invocation: the
ML-service oracle, the result of resolving the optional bearer token via
`supabase.auth.getUser` (id and email, `none` when the header is absent
or resolution fails — non-fatal), the clock, and the fresh row id. -/
structure SubmitEnv where
  ml : MLOutcome
  authUser : Option (Nat × String)
  now : Nat
  newId : Nat
deriving Repr, DecidableEq

/-- Response of the `process-complaint` handler (CORS preflight and the
JSON-parse failure of the request body aside). -/
inductive SubmitResult where
  | badRequest
  | ok (c : Complaint)
deriving Repr, DecidableEq

/-- The input-validation guard of the handler:
`!complaint_text || complaint_text.trim().length === 0`.  A missing
field is `none`; a trimmed length of zero means every character of the
string is whitespace (the empty string is falsy and also passes this
test), so the guard is modelled as an all-whitespace check over the
characters. -/
def blankText : Option String → Bool
  | none => true
  | some t => t.toList.all Char.isWhitespace

/-- The row built by the handler's `insert` call: the four prediction
fields, `ai_confidence_score: confidence_score || 0`,
`ai_explanation: explanation || ''`, `status: "Pending"`, the resolved
user id/email (or nulls), and the schema defaults `feedback_helpful
null`, `created_at`/`updated_at` `now()`. -/
def insertedRow (text : String) (preds : MLPredictions) (env : SubmitEnv) : Complaint :=
  { id := env.newId
    complaint_text := text
    category := preds.category
    sentiment := preds.sentiment
    priority := preds.priority
    ai_response := preds.ai_response
    ai_confidence_score := confidenceOrZero preds.confidence_score
    ai_explanation := explanationOrEmpty preds.explanation
    status := "Pending"
    feedback_helpful := none
    user_id := env.authUser.map Prod.fst
    user_email := env.authUser.map Prod.snd
    created_at := env.now
    updated_at := env.now }

/-- The `process-complaint` HTTP handler (`Deno.serve` body): validate
the text, call `getMLPredictions`, substitute `getFallbackValues` when
it returned `null`, insert the row, return it.  The database insert is
modelled as an always-succeeding append; the 500 path for a failed write
is environmental and outside this model. -/
def submit (complaint_text : Option String) (env : SubmitEnv) (s : Store) :
    SubmitResult × Store :=
  if blankText complaint_text then
    (.badRequest, s)
  else
    match complaint_text with
    | none => (.badRequest, s)
    | some text =>
        let preds := (getMLPredictions env.ml).getD getFallbackValues
        let row := insertedRow text preds env
        (.ok row, s ++ [row])

/-! ### The `manage-complaints` edge function -/

/-- The caller of `manage-complaints`, as the spec classifies callers:
an anonymous guest, an authenticated regular identity, or the elevated
service credential.  The handler itself builds its client from
`SUPABASE_SERVICE_ROLE_KEY` and never reads the request's Authorization
header, so this parameter is carried through the embedding untouched,
exactly as the code ignores it. -/
inductive Principal where
  | anon
  | user (id : Nat)
  | service
deriving Repr, DecidableEq

/-- Insertion of a row into a list sorted by `created_at` descending
(later rows sift below earlier rows of strictly greater key). -/
def insertByCreatedDesc (c : Complaint) : List Complaint → List Complaint
  | [] => [c]
  | x :: xs =>
      if x.created_at < c.created_at then c :: x :: xs
      else x :: insertByCreatedDesc c xs

/-- The `order("created_at", { ascending: false })` clause of the GET
branch: the stored rows sorted by `created_at` descending. -/
def orderByCreatedDesc (s : List Complaint) : List Complaint :=
  s.foldr insertByCreatedDesc []

/-- The GET branch of `manage-complaints/index.ts` (lines 24–41): select
every row of `complaints`, newest first.  The handler queries with the
service-role client and never inspects `principal`: the returned list is
the whole table for every caller. -/
def listComplaints (s : Store) (principal : Principal) : List Complaint :=
  orderByCreatedDesc s

/-- The body of a PUT request, `{ id, status?, feedback_helpful? }`.
`status : Option String` with `none` for an absent field;
`feedback_helpful : Option (Option Bool)` distinguishes an absent field
(`none`, JS `undefined`) from an explicit JSON `null` (`some none`). -/
structure UpdateRequest where
  id : Option Nat
  status : Option String
  feedback_helpful : Option (Option Bool)
deriving Repr, DecidableEq

/-- The `updateData` object applied to one row: always
`updated_at: new Date().toISOString()`; `if (status)` (truthy: present
and non-empty) adds `status`; `if (feedback_helpful !== undefined)` adds
`feedback_helpful` — note an explicit `null` passes this test and is
written as `null`. -/
def applyUpdate (req : UpdateRequest) (now : Nat) (c : Complaint) : Complaint :=
  let c1 : Complaint := { c with updated_at := now }
  let c2 : Complaint :=
    match req.status with
    | some st => if st = "" then c1 else { c1 with status := st }
    | none => c1
  match req.feedback_helpful with
  | some fb => { c2 with feedback_helpful := fb }
  | none => c2

/-- Response of the PUT branch: 400 when `id` is falsy; 500 when
`.select().single()` does not see exactly one updated row (the thrown
error is caught by the surrounding try); 200 with the updated row
otherwise. -/
inductive UpdateResult where
  | badRequest
  | storeError
  | ok (c : Complaint)
deriving Repr, DecidableEq

/-- The PUT branch of `manage-complaints/index.ts` (lines 44–80):
`update(updateData).eq("id", id).select().single()`.  SQL `UPDATE`
semantics: every row whose `id` matches receives `updateData`; rows with
other ids are untouched.  `single()` succeeds only when exactly one row
matched.  As in the GET branch, `principal` is never inspected — no
ownership check exists in this handler. -/
def updateComplaint (s : Store) (principal : Principal) (req : UpdateRequest)
    (now : Nat) : UpdateResult × Store :=
  match req.id with
  | none => (.badRequest, s)
  | some i =>
      let s2 := s.map (fun c => if c.id == i then applyUpdate req now c else c)
      match s.filter (fun c => c.id == i) with
      | [c] => (.ok (applyUpdate req now c), s2)
      | _ => (.storeError, s2)

/-- A sequence of PUT invocations, each with its caller, body and
timestamp, folded over the store. -/
def runUpdates (s : Store) : List (Principal × UpdateRequest × Nat) → Store
  | [] => s
  | (p, req, t) :: rest => runUpdates (updateComplaint s p req t).2 rest

/-! ### Concrete rows for closed instances -/

/-- A concrete complaint row with the given id, owner, status, feedback
and creation time, the remaining columns filled with representative
values. -/
def sampleRow (i : Nat) (uid : Option Nat) (st : String) (fb : Option Bool)
    (cAt : Nat) : Complaint :=
  { id := i
    complaint_text := "My package was delayed by 5 days"
    category := "Delayed Delivery"
    sentiment := "Negative"
    priority := "High"
    ai_response := "We apologize for the delay."
    ai_confidence_score := 82
    ai_explanation := ""
    status := st
    feedback_helpful := fb
    user_id := uid
    user_email := none
    created_at := cAt
    updated_at := cAt }

/-! ### Lemmas about the inference gateway -/

/-- A payload that survives validation has the four mandatory fields
non-empty. -/
theorem validatePayload_nonempty {q : MLPayload} {p : MLPredictions}
    (h : validatePayload q = some p) :
    p.category ≠ "" ∧ p.sentiment ≠ "" ∧ p.priority ≠ "" ∧ p.ai_response ≠ "" := by
  unfold validatePayload at h
  split at h
  · rename_i hguard
    split at h
    · rename_i hc hs hp hr
      cases h
      simp only [truthyStr, hc, hs, hp, hr, Bool.and_eq_true, Bool.not_eq_true',
        beq_eq_false_iff_ne, ne_eq] at hguard
      exact ⟨hguard.1.1.1, hguard.1.1.2, hguard.1.2, hguard.2⟩
    · exact absurd h (by simp)
  · exact absurd h (by simp)

/-- Any prediction the gateway hands to the handler has the four
mandatory fields non-empty. -/
theorem getMLPredictions_nonempty {o : MLOutcome} {p : MLPredictions}
    (h : getMLPredictions o = some p) :
    p.category ≠ "" ∧ p.sentiment ≠ "" ∧ p.priority ≠ "" ∧ p.ai_response ≠ "" := by
  cases o with
  | success q => exact validatePayload_nonempty h
  | noUrl => exact absurd h (by simp [getMLPredictions])
  | netError => exact absurd h (by simp [getMLPredictions])
  | httpError c => exact absurd h (by simp [getMLPredictions])
  | parseError => exact absurd h (by simp [getMLPredictions])

/-! ### Claims about the intake handler -/

/-- C4.  A missing, empty or whitespace-only `complaint_text` makes
`submit` fail with the 400 `InvalidInput` response, and the complaints
store is returned unchanged: the insert is never reached. -/
theorem submit_blank_rejected_no_write (text : Option String) (env : SubmitEnv)
    (s : Store) (hb : blankText text = true) :
    submit text env s = (.badRequest, s) := by
  simp [submit, hb]

theorem submit_blank_rejected_no_write_w :
    blankText (some "   ") = true ∧
      submit (some "   ") ⟨.noUrl, none, 7, 1⟩ [sampleRow 1 none "Pending" none 0]
        = (.badRequest, [sampleRow 1 none "Pending" none 0]) :=
  ⟨by decide, submit_blank_rejected_no_write _ _ _ (by decide)⟩

/-- C1.  Whenever the inference call fails (`getMLPredictions` returned
`null`: endpoint unconfigured, fetch error, non-success status, bad
JSON, or a payload with a falsy mandatory field) but the text is
non-blank, `submit` still succeeds and persists the static fallback:
category "Other", sentiment "Neutral", priority "Low", confidence 50; no
error from the inference step reaches the caller. -/
theorem submit_inference_failure_fallback (t : String) (env : SubmitEnv)
    (s : Store) (hb : blankText (some t) = false)
    (hml : getMLPredictions env.ml = none) :
    ∃ c, submit (some t) env s = (.ok c, s ++ [c]) ∧
      c.category = "Other" ∧ c.sentiment = "Neutral" ∧ c.priority = "Low" ∧
      c.ai_confidence_score = 50 := by
  refine ⟨insertedRow t getFallbackValues env, ?_, rfl, rfl, rfl, rfl⟩
  simp [submit, hb, hml]

theorem submit_inference_failure_fallback_w :
    blankText (some "Parcel never arrived") = false ∧
      getMLPredictions MLOutcome.noUrl = none ∧
      ∃ c, submit (some "Parcel never arrived") ⟨.noUrl, some (4, "u@example.com"), 9, 2⟩ []
          = (.ok c, [] ++ [c]) ∧
        c.category = "Other" ∧ c.sentiment = "Neutral" ∧ c.priority = "Low" ∧
        c.ai_confidence_score = 50 :=
  ⟨by decide, by decide,
    submit_inference_failure_fallback _ _ _ (by decide) (by decide)⟩

/-- C5.  For every non-blank `complaint_text` — whatever the ML oracle
does — `submit` succeeds and the persisted row has status "Pending",
`feedback_helpful` null, and non-empty category, sentiment, priority and
`ai_response`. -/
theorem submit_nonblank_persists_pending (t : String) (env : SubmitEnv)
    (s : Store) (hb : blankText (some t) = false) :
    ∃ c, submit (some t) env s = (.ok c, s ++ [c]) ∧
      c.status = "Pending" ∧ c.feedback_helpful = none ∧
      c.category ≠ "" ∧ c.sentiment ≠ "" ∧ c.priority ≠ "" ∧
      c.ai_response ≠ "" := by
  cases hml : getMLPredictions env.ml with
  | none =>
      refine ⟨insertedRow t getFallbackValues env, ?_, rfl, rfl, ?_, ?_, ?_, ?_⟩
      · simp [submit, hb, hml]
      all_goals simp [insertedRow, getFallbackValues]
  | some p =>
      obtain ⟨hc, hs, hp, hr⟩ := getMLPredictions_nonempty hml
      refine ⟨insertedRow t p env, ?_, rfl, rfl, hc, hs, hp, hr⟩
      simp [submit, hb, hml]

theorem submit_nonblank_persists_pending_w :
    blankText (some "Damaged parcel") = false ∧
      ∃ c, submit (some "Damaged parcel")
            ⟨.success ⟨some "Damaged Parcel", some "Negative", some "High",
              some "We apologize.", some 82, none⟩, none, 3, 5⟩ []
          = (.ok c, [] ++ [c]) ∧
        c.status = "Pending" ∧ c.feedback_helpful = none ∧
        c.category ≠ "" ∧ c.sentiment ≠ "" ∧ c.priority ≠ "" ∧
        c.ai_response ≠ "" :=
  ⟨by decide, submit_nonblank_persists_pending _ _ _ (by decide)⟩

/-! ### Claims about the access layer -/

/-- Membership is invariant under `insertByCreatedDesc`. -/
theorem mem_insertByCreatedDesc {c x : Complaint} {l : List Complaint} :
    c ∈ insertByCreatedDesc x l ↔ c = x ∨ c ∈ l := by
  induction l with
  | nil => simp [insertByCreatedDesc]
  | cons y ys ih =>
      by_cases h : y.created_at < x.created_at
      · simp [insertByCreatedDesc, h]
      · simp [insertByCreatedDesc, h, ih]
        tauto

/-- Membership is invariant under the `created_at`-descending sort. -/
theorem mem_orderByCreatedDesc {c : Complaint} {s : List Complaint} :
    c ∈ orderByCreatedDesc s ↔ c ∈ s := by
  induction s with
  | nil => simp [orderByCreatedDesc]
  | cons x xs ih =>
      simp only [orderByCreatedDesc, List.foldr_cons] at *
      rw [mem_insertByCreatedDesc]
      simp [ih, eq_comm]

/-- C10.  The GET handler never inspects the caller's credential: for a
fixed store, two requests that differ only in their Authorization header
(any two principals, including the anonymous one) receive exactly the
same complaint list. -/
theorem listComplaints_credential_insensitive (s : Store) (p1 p2 : Principal) :
    listComplaints s p1 = listComplaints s p2 := rfl

/-- C2, counterexample.  A regular authenticated principal with id 1
lists the store and receives a row owned by user 2: the claimed
owner-only filtering does not happen in this handler. -/
theorem listComplaints_returns_foreign_row :
    sampleRow 7 (some 2) "Pending" none 0 ∈
        listComplaints [sampleRow 7 (some 2) "Pending" none 0] (.user 1) ∧
      (sampleRow 7 (some 2) "Pending" none 0).user_id ≠ some 1 := by
  decide

/-- C2, amended.  `listComplaints` applies no per-user filter at all:
for every caller — anonymous, regular, or service — the returned list
contains exactly the rows of the store (reordered newest-first). -/
theorem mem_listComplaints_iff (s : Store) (p : Principal) (c : Complaint) :
    c ∈ listComplaints s p ↔ c ∈ s :=
  mem_orderByCreatedDesc

/-! ### Lemmas about the PUT branch -/

/-- `applyUpdate` never changes a row's id. -/
theorem applyUpdate_id (req : UpdateRequest) (now : Nat) (c : Complaint) :
    (applyUpdate req now c).id = c.id := by
  unfold applyUpdate
  cases req.status with
  | none => cases req.feedback_helpful <;> rfl
  | some st =>
      by_cases h : st = "" <;> cases req.feedback_helpful <;> simp [h]

/-- Filtering the updated store for the targeted id sees exactly the
updated images of the rows the filter saw before, because the per-row
update preserves ids. -/
theorem filter_map_update (s : List Complaint) (i : Nat)
    (g : Complaint → Complaint) (hg : ∀ c, (g c).id = c.id) :
    ((s.map fun c => if c.id == i then g c else c).filter fun c => c.id == i)
      = (s.filter fun c => c.id == i).map g := by
  induction s with
  | nil => rfl
  | cons x xs ih =>
      by_cases h : x.id = i
      · simp [h, hg]
        simpa using ih
      · simp [h]
        simpa using ih

/-- When exactly one row matches the id, the PUT branch returns 200 with
the updated row, and the store maps that row to its update. -/
theorem updateComplaint_single_match (s : Store) (p : Principal)
    (req : UpdateRequest) (now : Nat) (i : Nat) (c : Complaint)
    (hid : req.id = some i) (hu : s.filter (fun c => c.id == i) = [c]) :
    updateComplaint s p req now =
      (.ok (applyUpdate req now c),
        s.map fun x => if x.id == i then applyUpdate req now x else x) := by
  simp [updateComplaint, hid, hu]

/-- The success projection of `updateComplaint_single_match`: with
exactly one matching row, the PUT returns 200 with the updated row. -/
theorem updateComplaint_fst_ok (s : Store) (p : Principal)
    (req : UpdateRequest) (now : Nat) (i : Nat) (c : Complaint)
    (hid : req.id = some i) (hu : s.filter (fun c => c.id == i) = [c]) :
    (updateComplaint s p req now).1 = .ok (applyUpdate req now c) := by
  rw [updateComplaint_single_match s p req now i c hid hu]

/-- C3, counterexample.  Regular user 1 updates a complaint owned by
user 2: the call returns the 200 success response with the modified row
and the store has changed — no `Forbidden`, no untouched row. -/
theorem updateComplaint_nonowner_modifies :
    (sampleRow 7 (some 2) "Pending" none 0).user_id = some 2 ∧
      updateComplaint [sampleRow 7 (some 2) "Pending" none 0] (.user 1)
          ⟨some 7, some "Resolved", none⟩ 5
        = (.ok { sampleRow 7 (some 2) "Pending" none 0 with
                  status := "Resolved", updated_at := 5 },
           [{ sampleRow 7 (some 2) "Pending" none 0 with
                  status := "Resolved", updated_at := 5 }]) ∧
      [{ sampleRow 7 (some 2) "Pending" none 0 with
            status := "Resolved", updated_at := 5 }]
        ≠ [sampleRow 7 (some 2) "Pending" none 0] := by
  decide

/-- C3, amended.  The PUT handler checks no ownership at all: for every
principal — in particular a regular user who does not own the row — the
update of an existing complaint succeeds and returns the modified row.
The owner-only restriction exists only in the row-level policies for
direct table access, not in this endpoint. -/
theorem updateComplaint_ignores_ownership (s : Store) (p : Principal)
    (req : UpdateRequest) (now : Nat) (i : Nat) (c : Complaint)
    (hid : req.id = some i) (hu : s.filter (fun c => c.id == i) = [c]) :
    (updateComplaint s p req now).1 = .ok (applyUpdate req now c) :=
  updateComplaint_fst_ok s p req now i c hid hu

theorem updateComplaint_ignores_ownership_w :
    (updateComplaint [sampleRow 3 (some 2) "Pending" none 0] (.user 1)
        ⟨some 3, some "Resolved", none⟩ 6).1
      = .ok (applyUpdate ⟨some 3, some "Resolved", none⟩ 6
          (sampleRow 3 (some 2) "Pending" none 0)) :=
  updateComplaint_ignores_ownership _ _ _ _ 3 _ (by decide) (by decide)

/-- C6.  A PUT supplying only `{feedback_helpful: true}` updates exactly
that field: the returned row keeps every other column of the old row —
status included — while `feedback_helpful` becomes true and `updated_at`
becomes the call's (strictly later) timestamp. -/
theorem updateComplaint_feedback_only_frame (s : Store) (p : Principal)
    (now i : Nat) (c : Complaint)
    (hu : s.filter (fun c => c.id == i) = [c]) (hclock : c.updated_at < now) :
    ∃ c2, (updateComplaint s p ⟨some i, none, some (some true)⟩ now).1 = .ok c2 ∧
      c2.status = c.status ∧ c2.feedback_helpful = some true ∧
      c.updated_at < c2.updated_at ∧
      c2.id = c.id ∧ c2.complaint_text = c.complaint_text ∧
      c2.category = c.category ∧ c2.sentiment = c.sentiment ∧
      c2.priority = c.priority ∧ c2.ai_response = c.ai_response ∧
      c2.ai_confidence_score = c.ai_confidence_score ∧
      c2.ai_explanation = c.ai_explanation ∧
      c2.user_id = c.user_id ∧ c2.user_email = c.user_email ∧
      c2.created_at = c.created_at := by
  refine ⟨applyUpdate ⟨some i, none, some (some true)⟩ now c,
    updateComplaint_fst_ok s p _ now i c rfl hu,
    rfl, rfl, hclock, rfl, rfl, rfl, rfl, rfl, rfl, rfl, rfl, rfl, rfl, rfl⟩

theorem updateComplaint_feedback_only_frame_w :
    ∃ c2, (updateComplaint [sampleRow 4 (some 9) "Pending" none 10] .service
            ⟨some 4, none, some (some true)⟩ 11).1 = .ok c2 ∧
      c2.status = (sampleRow 4 (some 9) "Pending" none 10).status ∧
      c2.feedback_helpful = some true ∧
      (sampleRow 4 (some 9) "Pending" none 10).updated_at < c2.updated_at ∧
      c2.id = (sampleRow 4 (some 9) "Pending" none 10).id ∧
      c2.complaint_text = (sampleRow 4 (some 9) "Pending" none 10).complaint_text ∧
      c2.category = (sampleRow 4 (some 9) "Pending" none 10).category ∧
      c2.sentiment = (sampleRow 4 (some 9) "Pending" none 10).sentiment ∧
      c2.priority = (sampleRow 4 (some 9) "Pending" none 10).priority ∧
      c2.ai_response = (sampleRow 4 (some 9) "Pending" none 10).ai_response ∧
      c2.ai_confidence_score = (sampleRow 4 (some 9) "Pending" none 10).ai_confidence_score ∧
      c2.ai_explanation = (sampleRow 4 (some 9) "Pending" none 10).ai_explanation ∧
      c2.user_id = (sampleRow 4 (some 9) "Pending" none 10).user_id ∧
      c2.user_email = (sampleRow 4 (some 9) "Pending" none 10).user_email ∧
      c2.created_at = (sampleRow 4 (some 9) "Pending" none 10).created_at :=
  updateComplaint_feedback_only_frame _ .service 11 4 _ (by decide) (by decide)

/-- The feedback column after one update: the request's value when the
field was present (explicit `null` included), the old value otherwise. -/
theorem applyUpdate_feedback (req : UpdateRequest) (now : Nat) (c : Complaint) :
    (applyUpdate req now c).feedback_helpful
      = req.feedback_helpful.getD c.feedback_helpful := by
  unfold applyUpdate
  cases req.status with
  | none => cases req.feedback_helpful <;> rfl
  | some st => by_cases h : st = "" <;> cases req.feedback_helpful <;> simp [h]

/-- The status column after one update: the request's string when it was
present and non-empty (the JS truthiness guard), the old value
otherwise. -/
theorem applyUpdate_status (req : UpdateRequest) (now : Nat) (c : Complaint) :
    (applyUpdate req now c).status
      = match req.status with
        | some st => if st = "" then c.status else st
        | none => c.status := by
  unfold applyUpdate
  cases req.status with
  | none => cases req.feedback_helpful <;> rfl
  | some st => by_cases h : st = "" <;> cases req.feedback_helpful <;> simp [h]

/-- C7, counterexample.  Resolving the same complaint twice, at times 1
and then 2: both calls succeed, but the final states differ — the second
call refreshes `updated_at`, so the state after the first call is not
the state after the second. -/
theorem updateComplaint_resolve_twice_differs :
    (updateComplaint [sampleRow 1 (some 2) "Pending" none 0] .service
        ⟨some 1, some "Resolved", none⟩ 1).2
      = [{ sampleRow 1 (some 2) "Pending" none 0 with
            status := "Resolved", updated_at := 1 }] ∧
    (updateComplaint [{ sampleRow 1 (some 2) "Pending" none 0 with
            status := "Resolved", updated_at := 1 }] .service
        ⟨some 1, some "Resolved", none⟩ 2).2
      = [{ sampleRow 1 (some 2) "Pending" none 0 with
            status := "Resolved", updated_at := 2 }] ∧
    [{ sampleRow 1 (some 2) "Pending" none 0 with
            status := "Resolved", updated_at := 1 }]
      ≠ [{ sampleRow 1 (some 2) "Pending" none 0 with
            status := "Resolved", updated_at := 2 }] := by
  decide

/-- Applying `{status: "Resolved"}` to an already-resolved row only
refreshes `updated_at`. -/
theorem applyUpdate_resolve_again (i t : Nat) (c : Complaint)
    (h : c.status = "Resolved") :
    applyUpdate ⟨some i, some "Resolved", none⟩ t c
      = { c with updated_at := t } := by
  cases c
  simp only [applyUpdate] at h ⊢
  simp_all

/-- C7, amended.  Re-resolving is error-free and idempotent on every
column except `updated_at`: when exactly one row matches, both PUTs with
`{status: "Resolved"}` return 200, and the row after the second call is
the row after the first with only `updated_at` refreshed to the second
timestamp. -/
theorem updateComplaint_resolve_twice_mod_timestamp (s : Store)
    (p : Principal) (i t1 t2 : Nat) (c : Complaint)
    (hu : s.filter (fun c => c.id == i) = [c]) :
    ∃ c1, (updateComplaint s p ⟨some i, some "Resolved", none⟩ t1).1 = .ok c1 ∧
      c1.status = "Resolved" ∧
      (updateComplaint (updateComplaint s p ⟨some i, some "Resolved", none⟩ t1).2
          p ⟨some i, some "Resolved", none⟩ t2).1
        = .ok { c1 with updated_at := t2 } := by
  refine ⟨applyUpdate ⟨some i, some "Resolved", none⟩ t1 c,
    updateComplaint_fst_ok s p _ t1 i c rfl hu, rfl, ?_⟩
  have h2 : (updateComplaint s p ⟨some i, some "Resolved", none⟩ t1).2
      = s.map fun x => if x.id == i
          then applyUpdate ⟨some i, some "Resolved", none⟩ t1 x else x := by
    rw [updateComplaint_single_match s p _ t1 i c rfl hu]
  rw [h2]
  have hfilter : ((s.map fun x => if x.id == i
        then applyUpdate ⟨some i, some "Resolved", none⟩ t1 x else x).filter
          fun x => x.id == i)
      = [applyUpdate ⟨some i, some "Resolved", none⟩ t1 c] := by
    rw [filter_map_update s i _ (applyUpdate_id _ t1), hu]
    rfl
  rw [updateComplaint_fst_ok _ p _ t2 i _ rfl hfilter]
  exact congrArg UpdateResult.ok
    (applyUpdate_resolve_again i t2 _ (by rw [applyUpdate_status]; simp))

theorem updateComplaint_resolve_twice_mod_timestamp_w :
    ∃ c1, (updateComplaint [sampleRow 1 (some 2) "Pending" none 0] .service
          ⟨some 1, some "Resolved", none⟩ 1).1 = .ok c1 ∧
      c1.status = "Resolved" ∧
      (updateComplaint
          (updateComplaint [sampleRow 1 (some 2) "Pending" none 0] .service
            ⟨some 1, some "Resolved", none⟩ 1).2
          .service ⟨some 1, some "Resolved", none⟩ 2).1
        = .ok { c1 with updated_at := 2 } :=
  updateComplaint_resolve_twice_mod_timestamp
    [sampleRow 1 (some 2) "Pending" none 0] .service 1 1 2
    (sampleRow 1 (some 2) "Pending" none 0) (by decide)

/-! ### Invariant preservation over sequences of updates -/

/-- A reflexive relation holds pairwise along any list and itself. -/
theorem forall2_refl_list {R : Complaint → Complaint → Prop}
    (hrefl : ∀ c, R c c) (s : List Complaint) : List.Forall₂ R s s := by
  induction s with
  | nil => exact .nil
  | cons x xs ih => exact .cons (hrefl x) ih

/-- A relation that covers every per-element rewrite holds pairwise
between a list and its map. -/
theorem forall2_map_list {R : Complaint → Complaint → Prop}
    (f : Complaint → Complaint) (h : ∀ c, R c (f c)) :
    ∀ s : List Complaint, List.Forall₂ R s (s.map f)
  | [] => .nil
  | x :: xs => .cons (h x) (forall2_map_list f h xs)

/-- Pairwise lifting of a transitive relation composes. -/
theorem forall2_trans_chain {R : Complaint → Complaint → Prop}
    (htrans : ∀ a b c, R a b → R b c → R a c) :
    ∀ {s t u : List Complaint},
      List.Forall₂ R s t → List.Forall₂ R t u → List.Forall₂ R s u := by
  intro s t u h1 h2
  induction h1 generalizing u with
  | nil => cases h2; exact .nil
  | cons hab _ ih =>
      cases h2 with
      | cons hbc h2 => exact .cons (htrans _ _ _ hab hbc) (ih h2)

/-- The store produced by one PUT with a present id is the pointwise
image of the old store: matching rows receive `updateData`, the rest are
untouched — in every response branch. -/
theorem updateComplaint_snd (s : Store) (p : Principal) (req : UpdateRequest)
    (now i : Nat) (hid : req.id = some i) :
    (updateComplaint s p req now).2
      = s.map fun c => if c.id == i then applyUpdate req now c else c := by
  simp only [updateComplaint, hid]
  split <;> rfl

/-- One PUT relates old and new store pairwise, for any reflexive
relation covering the per-row update. -/
theorem updateComplaint_store_forall2 {R : Complaint → Complaint → Prop}
    (hrefl : ∀ c, R c c) (s : Store) (p : Principal) (req : UpdateRequest)
    (now : Nat) (hstep : ∀ c, R c (applyUpdate req now c)) :
    List.Forall₂ R s (updateComplaint s p req now).2 := by
  cases hid : req.id with
  | none =>
      have h : (updateComplaint s p req now).2 = s := by
        simp [updateComplaint, hid]
      rw [h]
      exact forall2_refl_list hrefl s
  | some i =>
      rw [updateComplaint_snd s p req now i hid]
      refine forall2_map_list _ (fun c => ?_) s
      by_cases h : c.id == i
      · simpa [h] using hstep c
      · simpa [h] using hrefl c

/-- Any reflexive, transitive relation covering each per-row update of a
request sequence relates the initial store to the final one pairwise. -/
theorem runUpdates_forall2 {R : Complaint → Complaint → Prop}
    (hrefl : ∀ c, R c c) (htrans : ∀ a b c, R a b → R b c → R a c)
    (s : Store) (ops : List (Principal × UpdateRequest × Nat))
    (hstep : ∀ op ∈ ops, ∀ c, R c (applyUpdate op.2.1 op.2.2 c)) :
    List.Forall₂ R s (runUpdates s ops) := by
  induction ops generalizing s with
  | nil => exact forall2_refl_list hrefl s
  | cons op rest ih =>
      obtain ⟨p, req, t⟩ := op
      have h1 : List.Forall₂ R s (updateComplaint s p req t).2 :=
        updateComplaint_store_forall2 hrefl s p req t
          (hstep _ (List.mem_cons_self _ _))
      have h2 := ih (updateComplaint s p req t).2
        (fun op hop => hstep op (List.mem_cons_of_mem _ hop))
      exact forall2_trans_chain htrans h1 h2

/-- C8, counterexample.  A PUT carrying an explicit JSON `null` for
`feedback_helpful` passes the `!== undefined` guard and writes `null`:
a row whose feedback was already `true` is reset to `null`. -/
theorem updateComplaint_feedback_null_reset :
    (sampleRow 1 none "Pending" (some true) 0).feedback_helpful = some true ∧
      (updateComplaint [sampleRow 1 none "Pending" (some true) 0] .service
          ⟨some 1, none, some none⟩ 3).1
        = .ok { sampleRow 1 none "Pending" (some true) 0 with
            feedback_helpful := none, updated_at := 3 } := by
  decide

/-- C8, amended.  Whenever `feedback_helpful` is present in a request it
is written verbatim — an explicit `null` resets the column.  For every
sequence of requests none of which carries an explicit `null` (the only
kind the UI issues), a non-null `feedback_helpful` never returns to
null; flips between true and false remain possible. -/
theorem feedback_nonnull_preserved (s : Store)
    (ops : List (Principal × UpdateRequest × Nat))
    (hops : ∀ op ∈ ops, op.2.1.feedback_helpful ≠ some none) :
    List.Forall₂
      (fun c c2 => c.feedback_helpful ≠ none → c2.feedback_helpful ≠ none)
      s (runUpdates s ops) := by
  refine runUpdates_forall2 (fun c => id)
    (fun a b c h1 h2 ha => h2 (h1 ha)) s ops (fun op hop c hc => ?_)
  rw [applyUpdate_feedback]
  cases hfb : op.2.1.feedback_helpful with
  | none => simpa using hc
  | some fb =>
      have := hops op hop
      rw [hfb] at this
      simpa using fun h => this (by rw [h])

theorem feedback_nonnull_preserved_w :
    List.Forall₂
      (fun c c2 => c.feedback_helpful ≠ none → c2.feedback_helpful ≠ none)
      [sampleRow 1 none "Pending" (some true) 0]
      (runUpdates [sampleRow 1 none "Pending" (some true) 0]
        [(.user 1, ⟨some 1, some "Resolved", some (some false)⟩, 2),
         (.service, ⟨some 1, none, none⟩, 3)]) :=
  feedback_nonnull_preserved _ _ (by decide)

/-- C9, counterexample.  The handler accepts any truthy status string:
a PUT with `{status: "Pending"}` moves a resolved complaint straight
back to Pending, so the claimed one-directionality fails on the code. -/
theorem updateComplaint_resolved_to_pending :
    (sampleRow 1 none "Resolved" none 0).status = "Resolved" ∧
      (updateComplaint [sampleRow 1 none "Resolved" none 0] .service
          ⟨some 1, some "Pending", none⟩ 4).1
        = .ok { sampleRow 1 none "Resolved" none 0 with
            status := "Pending", updated_at := 4 } := by
  decide

/-- C9, amended.  The handler writes any non-empty status string it is
sent, so Resolved → Pending (or any other value) is reachable.  For
request sequences whose status field is always absent or "Resolved" —
the only requests the admin UI issues — each row's status either stays
what it was or becomes "Resolved": resolved rows never revert and no
third value appears. -/
theorem status_monotone_for_resolve_requests (s : Store)
    (ops : List (Principal × UpdateRequest × Nat))
    (hops : ∀ op ∈ ops, op.2.1.status = none ∨ op.2.1.status = some "Resolved") :
    List.Forall₂ (fun c c2 => c2.status = c.status ∨ c2.status = "Resolved")
      s (runUpdates s ops) := by
  refine runUpdates_forall2 (fun c => Or.inl rfl)
    (fun a b c h1 h2 => ?_) s ops (fun op hop c => ?_)
  · rcases h2 with h2 | h2
    · rw [h2]; exact h1
    · exact Or.inr h2
  · rw [applyUpdate_status]
    rcases hops op hop with h | h
    · rw [h]; exact Or.inl rfl
    · rw [h]; simp

theorem status_monotone_for_resolve_requests_w :
    List.Forall₂ (fun c c2 => c2.status = c.status ∨ c2.status = "Resolved")
      [sampleRow 1 (some 2) "Pending" none 0, sampleRow 2 none "Resolved" none 0]
      (runUpdates
        [sampleRow 1 (some 2) "Pending" none 0, sampleRow 2 none "Resolved" none 0]
        [(.user 1, ⟨some 1, some "Resolved", none⟩, 2),
         (.service, ⟨some 2, none, some (some true)⟩, 3)]) :=
  status_monotone_for_resolve_requests _ _ (by decide)

end CustomerReview
